import Mathlib

/-!
Verification of hgrep's ripgrep orchestration (src/ripgrep.rs) and CLI
configuration logic (src/main.rs) via a shallow embedding in Lean.

Machine integers (u64/usize) are modelled as Nat; all arithmetic in the
modelled code paths is bounds-checked in the source (the match-count
counter is compared against 0 before the decrement), so no wrap-around
can occur and the Nat model is faithful. Fallible Rust functions
returning anyhow::Result are modelled with Except; a Rust panic
(an unchecked unwrap) is modelled as Option.none at the call boundary.
The Mutex around the shared match-count counter serializes all accesses,
so a concurrent run corresponds to a linearized sequence of sink events;
the embedding threads the counter through an arbitrary event sequence,
which quantifies over every possible interleaving.
-/

namespace Hgrep

/-- Embedding of hgrep's Match record (path plus 1-based line number) used
by the ripgrep module (crate::grep::Match as consumed in src/ripgrep.rs). -/
structure Match where
  path : String
  line_number : Nat
deriving DecidableEq, Repr

/-- Abstraction of grep_searcher's SinkMatch as consumed by
Matches::matched in src/ripgrep.rs: the 1-based first line number
(mat.line_number().unwrap()) and the number of physical lines the match
spans (mat.lines().count()). -/
structure SinkMatch where
  line_number : Nat
  line_count : Nat
deriving DecidableEq, Repr

/-- The list of Match events Matches::matched pushes onto its buffer for
one accepted sink match (src/ripgrep.rs lines 389-398): first a Match at
the reported line number, then, in multiline mode, one further Match per
additional physical line, at line numbers line_number + i for i in
1..line_count. -/
def matchEvents (multiline : Bool) (path : String) (mat : SinkMatch) : List Match :=
  { path := path, line_number := mat.line_number } ::
    (if multiline then
      (List.range (mat.line_count - 1)).map
        (fun i => { path := path, line_number := mat.line_number + (i + 1) })
    else [])

/-- Embedding of Matches::matched (src/ripgrep.rs lines 380-400). The
shared counter (self.count, a Mutex-guarded u64 when max_count was set)
is threaded as an explicit Option Nat. When the counter is Some 0 the
match is rejected: false is returned and the buffer is untouched.
Otherwise the counter is decremented by one (only when present), the
match events are appended to the buffer, and true is returned. -/
def Matches.matched (multiline : Bool) (path : String) (count : Option Nat)
    (buf : List Match) (mat : SinkMatch) : Option Nat × List Match × Bool :=
  match count with
  | some 0 => (some 0, buf, false)
  | some (c + 1) => (some c, buf ++ matchEvents multiline path mat, true)
  | none => (none, buf ++ matchEvents multiline path mat, true)

/-- The searcher's sink loop over one file's stream of sink matches:
grep_searcher calls Matches::matched for each match and stops searching
the file as soon as the sink returns false. -/
def searchLoop (multiline : Bool) (path : String) :
    Option Nat → List Match → List SinkMatch → Option Nat × List Match
  | count, buf, [] => (count, buf)
  | count, buf, mat :: rest =>
    match Matches.matched multiline path count buf mat with
    | (count', buf', true) => searchLoop multiline path count' buf' rest
    | (count', buf', false) => (count', buf')

/-- Embedding of Ripgrep::search (src/ripgrep.rs lines 436-452): when the
shared counter is present and already zero the file is not searched and
an empty match list is returned; otherwise the searcher runs the sink
loop starting from an empty buffer. The file's sink-match stream is a
parameter (the regex engine and file IO are external). -/
def Ripgrep.search (multiline : Bool) (count : Option Nat) (path : String)
    (events : List SinkMatch) : Option Nat × List Match :=
  if count = some 0 then (count, [])
  else searchLoop multiline path count [] events

/-- A whole run's searches with the shared counter threaded through:
each file is a (path, sink-match stream) pair. Because the Mutex
serializes counter accesses, any concurrent schedule corresponds to some
such sequence of files and events. -/
def searchAll (multiline : Bool) :
    Option Nat → List (String × List SinkMatch) → Option Nat × List (List Match)
  | count, [] => (count, [])
  | count, (path, events) :: rest =>
    let r := Ripgrep.search multiline count path events
    let rr := searchAll multiline r.1 rest
    (rr.1, r.2 :: rr.2)

/-- Specification measure (not source code): the number of sink matches
the sink loop accepts, mirroring searchLoop step by step. -/
def acceptedLoop (multiline : Bool) (path : String) :
    Option Nat → List Match → List SinkMatch → Nat
  | _, _, [] => 0
  | count, buf, mat :: rest =>
    match Matches.matched multiline path count buf mat with
    | (count', buf', true) => acceptedLoop multiline path count' buf' rest + 1
    | (_, _, false) => 0

/-- Specification measure: the number of matches Ripgrep::search accepts
for one file. -/
def acceptedSearch (multiline : Bool) (count : Option Nat) (path : String)
    (events : List SinkMatch) : Nat :=
  if count = some 0 then 0 else acceptedLoop multiline path count [] events

/-- Specification measure: the total number of matches accepted across a
whole run, mirroring searchAll. -/
def acceptedAll (multiline : Bool) :
    Option Nat → List (String × List SinkMatch) → Nat
  | _, [] => 0
  | count, (path, events) :: rest =>
    acceptedSearch multiline count path events +
      acceptedAll multiline (Ripgrep.search multiline count path events).1 rest

/-- Embedding of the path-consuming prefix of Config::build_walker
(src/ripgrep.rs lines 180-215): the first path is taken with an
unchecked unwrap (paths.next().unwrap()), which panics on an empty
iterator (modelled as none); the remaining paths are added to the
WalkBuilder. -/
def build_walker (paths : List String) : Option (String × List String) :=
  match paths with
  | [] => none
  | target :: rest => some (target, rest)

/-- Embedding of Ripgrep::grep_file's print loop (src/ripgrep.rs lines
454-463): found starts false, each chunked file is printed (print may
fail) and found is set to true after every successful print. The chunk
aggregation (crate::chunk::Files) is external; its output list is the
argument. -/
def grep_file {χ ε : Type} (print : χ → Except ε Unit) (files : List χ) :
    Except ε Bool :=
  files.foldlM (fun _found file => (print file).map (fun _ => true)) false

/-- Embedding of Ripgrep::grep's parallel reduction (src/ripgrep.rs lines
465-471): per-file Results are combined with try_reduce using identity
false and operator logical OR; any error aborts the reduction. -/
def try_reduce_or {ε : Type} (results : List (Except ε Bool)) : Except ε Bool :=
  results.foldlM (fun a r => r.map (fun b => a || b)) false

/-- Embedding of the top-level grep function (src/ripgrep.rs lines
324-340): the input paths first reach build_walker (panicking when the
iterator is empty, hence the Option), the walker's file enumeration
(external; its Result is the walkRes parameter) yields the walked file
list; an empty walked list returns Ok(false); otherwise every walked
file is searched and chunk-printed and the per-file found flags are
OR-reduced. -/
def grep {χ ε : Type} (paths : List String) (walkRes : Except ε (List String))
    (searchFile : String → Except ε (List χ)) (print : χ → Except ε Unit) :
    Option (Except ε Bool) :=
  match build_walker paths with
  | none => none
  | some _ =>
    some (match walkRes with
      | .error e => .error e
      | .ok walked =>
        if walked.isEmpty then .ok false
        else try_reduce_or
          (walked.map (fun p => (searchFile p).bind (grep_file print))))

/-- Embedding of hgrep's Config (src/ripgrep.rs lines 22-46,
derive(Default)): every field defaults to false / 0 / empty / None. -/
structure Config where
  min_context : Nat := 0
  max_context : Nat := 0
  no_ignore : Bool := false
  hidden : Bool := false
  case_insensitive : Bool := false
  smart_case : Bool := false
  globs : List String := []
  glob_case_insensitive : Bool := false
  fixed_strings : Bool := false
  word_regexp : Bool := false
  follow_symlink : Bool := false
  multiline : Bool := false
  crlf : Bool := false
  multiline_dotall : Bool := false
  mmap : Bool := false
  max_count : Option Nat := none
  max_depth : Option Nat := none
  max_filesize : Option Nat := none
  line_regexp : Bool := false
  pcre2 : Bool := false
  types : List String := []
  types_not : List String := []
deriving DecidableEq, Repr

/-- Config::default() (derive(Default) in src/ripgrep.rs). -/
def defaultConfig : Config := {}

/-- One builder-method call on Config, with its argument
(src/ripgrep.rs lines 55-178): one constructor per setter. -/
inductive BuilderOp where
  | min_context (num : Nat)
  | max_context (num : Nat)
  | no_ignore (yes : Bool)
  | hidden (yes : Bool)
  | case_insensitive (yes : Bool)
  | smart_case (yes : Bool)
  | globs (gs : List String)
  | glob_case_insensitive (yes : Bool)
  | fixed_strings (yes : Bool)
  | word_regexp (yes : Bool)
  | line_regexp (yes : Bool)
  | follow_symlink (yes : Bool)
  | multiline (yes : Bool)
  | crlf (yes : Bool)
  | multiline_dotall (yes : Bool)
  | mmap (yes : Bool)
  | max_count (num : Nat)
  | max_depth (num : Nat)
  | max_filesize (num : Nat)
  | pcre2 (yes : Bool)
  | types (ts : List String)
  | types_not (ts : List String)
deriving DecidableEq, Repr

/-- Applying one builder call to a Config, following each setter's body
in src/ripgrep.rs: case_insensitive(true) clears smart_case and
vice versa (lines 75-89); word_regexp(true) clears line_regexp and
vice versa (lines 109-123); fixed_strings(true) clears pcre2
(lines 101-107); every other setter stores its argument. -/
def applyOp (c : Config) : BuilderOp → Config
  | .min_context num => { c with min_context := num }
  | .max_context num => { c with max_context := num }
  | .no_ignore yes => { c with no_ignore := yes }
  | .hidden yes => { c with hidden := yes }
  | .case_insensitive yes =>
    let c := { c with case_insensitive := yes }
    if yes then { c with smart_case := false } else c
  | .smart_case yes =>
    let c := { c with smart_case := yes }
    if yes then { c with case_insensitive := false } else c
  | .globs gs => { c with globs := gs }
  | .glob_case_insensitive yes => { c with glob_case_insensitive := yes }
  | .fixed_strings yes =>
    let c := { c with fixed_strings := yes }
    if yes then { c with pcre2 := false } else c
  | .word_regexp yes =>
    let c := { c with word_regexp := yes }
    if yes then { c with line_regexp := false } else c
  | .line_regexp yes =>
    let c := { c with line_regexp := yes }
    if yes then { c with word_regexp := false } else c
  | .follow_symlink yes => { c with follow_symlink := yes }
  | .multiline yes => { c with multiline := yes }
  | .crlf yes => { c with crlf := yes }
  | .multiline_dotall yes => { c with multiline_dotall := yes }
  | .mmap yes => { c with mmap := yes }
  | .max_count num => { c with max_count := some num }
  | .max_depth num => { c with max_depth := some num }
  | .max_filesize num => { c with max_filesize := some num }
  | .pcre2 yes => { c with pcre2 := yes }
  | .types ts => { c with types := ts }
  | .types_not ts => { c with types_not := ts }

/-- A sequence of builder calls applied left to right. -/
def applyOps (c : Config) (ops : List BuilderOp) : Config :=
  ops.foldl applyOp c

/-- The printer backend selected by the --printer option
(src/main.rs lines 327-333), with both cargo features enabled. -/
inductive PrinterKind where
  | bat
  | syntect
deriving DecidableEq, Repr

/-- Text-wrapping mode of the printer (crate::printer::TextWrapMode). -/
inductive TextWrapMode where
  | char
  | never
deriving DecidableEq, Repr

/-- Modelled from the spec: PrinterOptions and its Default impl live in
src/printer.rs, which is not among the given sources; the field list and
the defaults (tab_width 4, grid on, char wrapping, every boolean flag
off) follow section 3 of the spec and the CLI defaults in src/main.rs.
The term_width default is irrelevant to the claims below; 80 is a
placeholder. -/
structure PrinterOptions where
  tab_width : Nat := 4
  theme : Option String := none
  grid : Bool := true
  term_width : Nat := 80
  text_wrap : TextWrapMode := TextWrapMode.char
  first_only : Bool := false
  background_color : Bool := false
  ascii_lines : Bool := false
  custom_assets : Bool := false
deriving DecidableEq, Repr

/-- Embedding of the max-context clamp in app (src/main.rs line 368):
let max_context = cmp::max(min_context, max_context). -/
def app_max_context (min_context max_context : Nat) : Nat :=
  max min_context max_context

/-- The BAT_STYLE environment values for which app turns the grid off for
the bat printer (src/main.rs lines 392-394): plain, header or numbers. -/
def bat_style_override : Option String → Bool
  | some "plain" => true
  | some "header" => true
  | some "numbers" => true
  | _ => false

/-- Embedding of the grid computation in app (src/main.rs lines 389-402):
is_grid is the presence of the --grid flag; with the bat printer and a
BAT_STYLE of plain/header/numbers, grid is turned off unless --grid was
given; then grid is turned off when --no-grid was given and --grid was
not. -/
def app_grid (kind : PrinterKind) (bat_style : Option String)
    (grid_flag no_grid_flag : Bool) (opts : PrinterOptions) : PrinterOptions :=
  let is_grid := grid_flag
  let opts :=
    if decide (kind = PrinterKind.bat) && bat_style_override bat_style && !is_grid
    then { opts with grid := false } else opts
  if no_grid_flag && !is_grid then { opts with grid := false } else opts

/-- Embedding of the term-width handling in app (src/main.rs lines
404-412): when the option is absent nothing happens; when present, the
parsed width is stored into the printer options and then the run fails
when it is below 10. -/
def validate_term_width (term_width : Option Nat) (opts : PrinterOptions) :
    Except String PrinterOptions :=
  match term_width with
  | none => Except.ok opts
  | some width =>
    let opts := { opts with term_width := width }
    if width < 10 then
      Except.error "Too small value at --term-width option"
    else Except.ok opts

/-- Embedding of the --background / --ascii-lines handling in app
(src/main.rs lines 428-445), with both printer features compiled in:
each present flag is stored into the printer options and then rejected
with an error when the selected printer is bat. -/
def validate_background_ascii (kind : PrinterKind)
    (background ascii_lines : Bool) (opts : PrinterOptions) :
    Except String PrinterOptions := do
  let opts ←
    if background then
      let opts := { opts with background_color := true }
      if kind = PrinterKind.bat then
        Except.error "--background flag is only available for syntect printer since bat does not support painting background colors"
      else Except.ok opts
    else Except.ok opts
  if ascii_lines then
    let opts := { opts with ascii_lines := true }
    if kind = PrinterKind.bat then
      Except.error "--ascii-lines flag is only available for syntect printer since bat does not support this feature"
    else Except.ok opts
  else Except.ok opts

/-- Sequencing of a configuration step before the search/render stage of
app: a configuration error propagates and the run closure is never
invoked. -/
def config_then_run (conf : Except String PrinterOptions)
    (run : PrinterOptions → Except String Bool) : Except String Bool :=
  match conf with
  | Except.error e => Except.error e
  | Except.ok opts => run opts

/-- Embedding of main's exit-status computation (src/main.rs lines
592-599): Ok(true) exits 0, Ok(false) exits 1, Err exits 2. -/
def main_status {ε : Type} : Except ε Bool → Nat
  | Except.ok true => 0
  | Except.ok false => 1
  | Except.error _ => 2

/-- Mutual-exclusion invariant maintained by the Config builder:
case_insensitive and smart_case are never both true, and word_regexp and
line_regexp are never both true. -/
def ConfigInv (c : Config) : Prop :=
  (c.case_insensitive && c.smart_case) = false ∧
  (c.word_regexp && c.line_regexp) = false

lemma applyOp_inv (c : Config) (op : BuilderOp) (h : ConfigInv c) :
    ConfigInv (applyOp c op) := by
  obtain ⟨h1, h2⟩ := h
  cases op with
  | min_context num => exact ⟨h1, h2⟩
  | max_context num => exact ⟨h1, h2⟩
  | no_ignore yes => exact ⟨h1, h2⟩
  | hidden yes => exact ⟨h1, h2⟩
  | case_insensitive yes => cases yes <;> exact ⟨by simp [applyOp], h2⟩
  | smart_case yes => cases yes <;> exact ⟨by simp [applyOp], h2⟩
  | globs gs => exact ⟨h1, h2⟩
  | glob_case_insensitive yes => exact ⟨h1, h2⟩
  | fixed_strings yes => cases yes <;> exact ⟨h1, h2⟩
  | word_regexp yes => cases yes <;> exact ⟨h1, by simp [applyOp]⟩
  | line_regexp yes => cases yes <;> exact ⟨h1, by simp [applyOp]⟩
  | follow_symlink yes => exact ⟨h1, h2⟩
  | multiline yes => exact ⟨h1, h2⟩
  | crlf yes => exact ⟨h1, h2⟩
  | multiline_dotall yes => exact ⟨h1, h2⟩
  | mmap yes => exact ⟨h1, h2⟩
  | max_count num => exact ⟨h1, h2⟩
  | max_depth num => exact ⟨h1, h2⟩
  | max_filesize num => exact ⟨h1, h2⟩
  | pcre2 yes => exact ⟨h1, h2⟩
  | types ts => exact ⟨h1, h2⟩
  | types_not ts => exact ⟨h1, h2⟩

lemma applyOps_inv (ops : List BuilderOp) :
    ∀ c : Config, ConfigInv c → ConfigInv (applyOps c ops) := by
  induction ops with
  | nil => intro c h; exact h
  | cons op ops ih => intro c h; exact ih _ (applyOp_inv c op h)

/-- C3: the effective max_context computed by app is an upper bound of
both parsed values and is one of them, so min_context is always at most
the effective max_context, for every pair of user-supplied values. -/
theorem max_context_clamped (mn mx : Nat) :
    mn ≤ app_max_context mn mx ∧ mx ≤ app_max_context mn mx ∧
      (app_max_context mn mx = mn ∨ app_max_context mn mx = mx) := by
  refine ⟨Nat.le_max_left _ _, Nat.le_max_right _ _, ?_⟩
  rcases Nat.le_total mn mx with h | h
  · exact Or.inr (Nat.max_eq_right h)
  · exact Or.inl (Nat.max_eq_left h)

/-- C5: the process exit status is 0 when app returned Ok(true), 1 when
app returned Ok(false), and 2 when app returned an error, whatever the
error value is. -/
theorem exit_status_convention {ε : Type} (e : ε) :
    main_status (Except.ok true : Except ε Bool) = 0 ∧
    main_status (Except.ok false : Except ε Bool) = 1 ∧
    main_status (Except.error e : Except ε Bool) = 2 :=
  ⟨rfl, rfl, rfl⟩

/-- C6: with the bat printer selected, requesting background painting or
ASCII border lines makes configuration fail with an error, and the
search/render stage (the run continuation) is never invoked: the whole
run returns that configuration error no matter what the continuation
would do. -/
theorem bat_rejects_background_ascii_lines (opts : PrinterOptions)
    (run : PrinterOptions → Except String Bool) (background ascii_lines : Bool)
    (h : background = true ∨ ascii_lines = true) :
    ∃ e, validate_background_ascii PrinterKind.bat background ascii_lines opts
        = Except.error e ∧
      config_then_run
        (validate_background_ascii PrinterKind.bat background ascii_lines opts)
        run = Except.error e := by
  rcases h with h | h
  · subst h
    exact ⟨_, rfl, rfl⟩
  · subst h
    cases background
    · exact ⟨_, rfl, rfl⟩
    · exact ⟨_, rfl, rfl⟩

/-- Witness for C6 at a concrete input: the bat printer with the
background flag present yields a configuration error. -/
theorem bat_rejects_background_ascii_lines_witness :
    ((true : Bool) = true ∨ (false : Bool) = true) ∧
    ∃ e, validate_background_ascii PrinterKind.bat true false {}
        = Except.error e ∧
      config_then_run (validate_background_ascii PrinterKind.bat true false {})
        (fun _ => Except.ok false) = Except.error e :=
  ⟨Or.inl rfl,
   bat_rejects_background_ascii_lines {} (fun _ => Except.ok false) true false
     (Or.inl rfl)⟩

/-- C7: an absent term-width produces no error; a supplied width below
10 makes configuration fail and the run continuation is never invoked; a
supplied width of at least 10 is accepted and stored as the printer's
terminal width. -/
theorem term_width_minimum (opts : PrinterOptions) (width : Nat)
    (run : PrinterOptions → Except String Bool) :
    (validate_term_width none opts = Except.ok opts) ∧
    (width < 10 → ∃ e, validate_term_width (some width) opts = Except.error e ∧
        config_then_run (validate_term_width (some width) opts) run
          = Except.error e) ∧
    (10 ≤ width → validate_term_width (some width) opts
        = Except.ok { opts with term_width := width }) := by
  refine ⟨rfl, ?_, ?_⟩
  · intro h
    have hv : validate_term_width (some width) opts
        = Except.error "Too small value at --term-width option" := by
      simp only [validate_term_width]
      rw [if_pos h]
    exact ⟨_, hv, by rw [hv]; rfl⟩
  · intro h
    simp only [validate_term_width]
    rw [if_neg (Nat.not_lt.mpr h)]

/-- Witness for C7 at concrete inputs: width 5 is rejected and width 12
is accepted and stored. -/
theorem term_width_minimum_witness :
    ((5 : Nat) < 10) ∧
    (∃ e, validate_term_width (some 5) {} = Except.error e ∧
      config_then_run (validate_term_width (some 5) {})
        (fun _ => Except.ok false) = Except.error e) ∧
    ((10 : Nat) ≤ 12) ∧
    validate_term_width (some 12) {}
      = Except.ok ({ term_width := 12 } : PrinterOptions) :=
  ⟨by decide,
   (term_width_minimum {} 5 (fun _ => Except.ok false)).2.1 (by decide),
   by decide,
   (term_width_minimum {} 12 (fun _ => Except.ok false)).2.2 (by decide)⟩

/-- Counterexample for C8 as stated: with the bat printer and BAT_STYLE
set to plain, neither --grid nor --no-grid given, the grid ends up off,
so the grid is not off exactly when --no-grid is present and --grid is
absent. -/
theorem grid_claim_counterexample :
    ¬(((app_grid PrinterKind.bat (some "plain") false false {}).grid = false) ↔
        ((false : Bool) && !(false : Bool)) = true) := by
  intro hiff
  have hP : (app_grid PrinterKind.bat (some "plain") false false {}).grid
      = false := by rfl
  exact Bool.noConfusion (hiff.mp hP)

/-- C8 (amended): grid is on by default, and for every printer,
BAT_STYLE value and combination of the two flags, grid ends up off
exactly when --grid is absent and either --no-grid is present or the
printer is bat with BAT_STYLE set to plain, header or numbers. -/
theorem grid_flag_resolution (kind : PrinterKind) (style : Option String)
    (grid_flag no_grid_flag : Bool) :
    ({} : PrinterOptions).grid = true ∧
    (((app_grid kind style grid_flag no_grid_flag {}).grid = false) ↔
      (!grid_flag && (no_grid_flag ||
        (decide (kind = PrinterKind.bat) && bat_style_override style)))
        = true) := by
  refine ⟨rfl, ?_⟩
  cases kind <;> cases grid_flag <;> cases no_grid_flag <;>
    cases hb : bat_style_override style <;>
      simp [app_grid, hb]

/-- C9: starting from Config::default(), after any sequence of builder
calls case_insensitive and smart_case are never both true and
word_regexp and line_regexp are never both true; moreover each setter of
a pair, called with true, clears the other member, so the last setter of
a pair wins. -/
theorem config_exclusive_pairs (ops : List BuilderOp) (c : Config) :
    ((applyOps defaultConfig ops).case_insensitive &&
        (applyOps defaultConfig ops).smart_case) = false ∧
    ((applyOps defaultConfig ops).word_regexp &&
        (applyOps defaultConfig ops).line_regexp) = false ∧
    (applyOp c (BuilderOp.case_insensitive true)).smart_case = false ∧
    (applyOp c (BuilderOp.smart_case true)).case_insensitive = false ∧
    (applyOp c (BuilderOp.word_regexp true)).line_regexp = false ∧
    (applyOp c (BuilderOp.line_regexp true)).word_regexp = false := by
  obtain ⟨h1, h2⟩ := applyOps_inv ops defaultConfig ⟨rfl, rfl⟩
  exact ⟨h1, h2, rfl, rfl, rfl, rfl⟩

lemma matchEvents_multiline (p : String) (L k : Nat) :
    matchEvents true p ⟨L, k + 1⟩
      = (List.range (k + 1)).map (fun i => ⟨p, L + i⟩) := by
  simp [matchEvents, List.range_succ_eq_map, List.map_map, Function.comp,
    Nat.succ_eq_add_one]

/-- C4: an accepted match spanning k+1 physical lines starting at line L
produces, in multiline mode, exactly k+1 buffered Match events with
consecutive line numbers L, L+1, ..., L+k, all carrying the file's path,
appended after the existing buffer (hence before any later match's
events); in non-multiline mode exactly one event at line L is appended.
Both hold whether the run has a remaining budget (counter c+1) or no
budget at all (counter None). -/
theorem multiline_match_expansion (p : String) (buf : List Match) (L k c : Nat) :
    Matches.matched true p (some (c + 1)) buf ⟨L, k + 1⟩
      = (some c, buf ++ (List.range (k + 1)).map (fun i => ⟨p, L + i⟩), true) ∧
    Matches.matched true p none buf ⟨L, k + 1⟩
      = (none, buf ++ (List.range (k + 1)).map (fun i => ⟨p, L + i⟩), true) ∧
    Matches.matched false p (some (c + 1)) buf ⟨L, k + 1⟩
      = (some c, buf ++ [⟨p, L⟩], true) ∧
    Matches.matched false p none buf ⟨L, k + 1⟩
      = (none, buf ++ [⟨p, L⟩], true) := by
  refine ⟨?_, ?_, ?_, ?_⟩
  · simp [Matches.matched, matchEvents_multiline]
  · simp [Matches.matched, matchEvents_multiline]
  · simp [Matches.matched, matchEvents]
  · simp [Matches.matched, matchEvents]

lemma searchLoop_budget (ml : Bool) (p : String) :
    ∀ (events : List SinkMatch) (n : Nat) (buf : List Match),
      acceptedLoop ml p (some n) buf events ≤ n ∧
      (searchLoop ml p (some n) buf events).1
        = some (n - acceptedLoop ml p (some n) buf events) := by
  intro events
  induction events with
  | nil => intro n buf; exact ⟨Nat.zero_le _, rfl⟩
  | cons mat rest ih =>
    intro n buf
    cases n with
    | zero =>
      have hstep : Matches.matched ml p (some 0) buf mat
          = (some 0, buf, false) := rfl
      have ha : acceptedLoop ml p (some 0) buf (mat :: rest) = 0 := by
        simp [acceptedLoop, hstep]
      have hs : searchLoop ml p (some 0) buf (mat :: rest) = (some 0, buf) := by
        simp [searchLoop, hstep]
      rw [ha, hs]
      exact ⟨Nat.le_refl 0, rfl⟩
    | succ m =>
      have hstep : Matches.matched ml p (some (m + 1)) buf mat
          = (some m, buf ++ matchEvents ml p mat, true) := rfl
      have ha : acceptedLoop ml p (some (m + 1)) buf (mat :: rest)
          = acceptedLoop ml p (some m) (buf ++ matchEvents ml p mat) rest + 1 := by
        simp [acceptedLoop, hstep]
      have hs : searchLoop ml p (some (m + 1)) buf (mat :: rest)
          = searchLoop ml p (some m) (buf ++ matchEvents ml p mat) rest := by
        simp [searchLoop, hstep]
      obtain ⟨ih1, ih2⟩ := ih m (buf ++ matchEvents ml p mat)
      refine ⟨by omega, ?_⟩
      rw [hs, ih2, ha]
      congr 1
      omega

lemma search_budget (ml : Bool) (p : String) (events : List SinkMatch) (n : Nat) :
    acceptedSearch ml (some n) p events ≤ n ∧
    (Ripgrep.search ml (some n) p events).1
      = some (n - acceptedSearch ml (some n) p events) := by
  cases n with
  | zero => exact ⟨Nat.le_refl 0, rfl⟩
  | succ m =>
    have h1 : acceptedSearch ml (some (m + 1)) p events
        = acceptedLoop ml p (some (m + 1)) [] events := by
      simp [acceptedSearch]
    have h2 : Ripgrep.search ml (some (m + 1)) p events
        = searchLoop ml p (some (m + 1)) [] events := by
      simp [Ripgrep.search]
    obtain ⟨ha, hc⟩ := searchLoop_budget ml p events (m + 1) []
    rw [h1, h2]
    exact ⟨ha, hc⟩

lemma searchAll_budget (ml : Bool) :
    ∀ (files : List (String × List SinkMatch)) (n : Nat),
      acceptedAll ml (some n) files ≤ n ∧
      (searchAll ml (some n) files).1
        = some (n - acceptedAll ml (some n) files) := by
  intro files
  induction files with
  | nil => intro n; exact ⟨Nat.zero_le _, rfl⟩
  | cons f rest ih =>
    obtain ⟨p, events⟩ := f
    intro n
    obtain ⟨ha1, hc1⟩ := search_budget ml p events n
    obtain ⟨ha2, hc2⟩ := ih (n - acceptedSearch ml (some n) p events)
    have hAll : acceptedAll ml (some n) ((p, events) :: rest)
        = acceptedSearch ml (some n) p events +
          acceptedAll ml (some (n - acceptedSearch ml (some n) p events)) rest := by
      simp [acceptedAll, hc1]
    have hS : (searchAll ml (some n) ((p, events) :: rest)).1
        = (searchAll ml
            (some (n - acceptedSearch ml (some n) p events)) rest).1 := by
      simp [searchAll, hc1]
    constructor
    · rw [hAll]; omega
    · rw [hS, hc2, hAll]
      congr 1
      omega

/-- C1: with max_count set to n, a match arriving when the shared
counter is zero is rejected without being buffered and leaves the
counter at zero; a file whose search begins at counter zero yields an
empty match list; and over a whole run (any serialized order of files
and matches) the total number of accepted matches is at most n, while
the final counter is exactly n minus that total, so the counter is
decremented by exactly one per accepted match and never goes below
zero. -/
theorem max_count_shared_budget (ml : Bool) (p : String) (buf : List Match)
    (mat : SinkMatch) (events : List SinkMatch) (n : Nat)
    (files : List (String × List SinkMatch)) :
    Matches.matched ml p (some 0) buf mat = (some 0, buf, false) ∧
    Ripgrep.search ml (some 0) p events = (some 0, []) ∧
    acceptedAll ml (some n) files ≤ n ∧
    (searchAll ml (some n) files).1
      = some (n - acceptedAll ml (some n) files) := by
  refine ⟨rfl, rfl, ?_, ?_⟩
  · exact (searchAll_budget ml files n).1
  · exact (searchAll_budget ml files n).2

lemma foldlM_const_true {χ ε : Type} (f : Bool → χ → Except ε Bool)
    (hf : ∀ b x, f b x = Except.ok true) :
    ∀ (files : List χ) (b : Bool),
      List.foldlM f b files = Except.ok (b || !files.isEmpty) := by
  intro files
  induction files with
  | nil => intro b; simp; rfl
  | cons x rest ih =>
    intro b
    rw [List.foldlM_cons, hf]
    show List.foldlM f true rest = _
    rw [ih]
    simp

lemma grep_file_all_ok {χ ε : Type} (files : List χ) :
    grep_file (fun _ => (Except.ok () : Except ε Unit)) files
      = Except.ok (!files.isEmpty) := by
  have h := foldlM_const_true
    (fun (_ : Bool) (file : χ) =>
      ((Except.ok () : Except ε Unit)).map (fun _ => true))
    (fun _ _ => rfl) files false
  simpa [grep_file] using h

lemma try_reduce_or_all_ok {ε : Type} (g : String → Bool) :
    ∀ (walked : List String) (b : Bool),
      List.foldlM (fun a (r : Except ε Bool) => r.map (fun v => a || v)) b
          (walked.map (fun q => (Except.ok (g q) : Except ε Bool)))
        = Except.ok (b || walked.any g) := by
  intro walked
  induction walked with
  | nil => intro b; simp; rfl
  | cons q rest ih =>
    intro b
    rw [List.map_cons, List.foldlM_cons]
    show List.foldlM _ (b || g q) _ = _
    rw [ih]
    simp [Bool.or_assoc]

lemma try_reduce_or_ok {ε : Type} (g : String → Bool) (walked : List String) :
    try_reduce_or (walked.map (fun q => (Except.ok (g q) : Except ε Bool)))
      = Except.ok (walked.any g) := by
  have h := @try_reduce_or_all_ok ε g walked false
  simpa [try_reduce_or] using h

lemma grep_all_ok {χ ε : Type} (target : String) (rest walked : List String)
    (chunks : String → List χ) :
    grep (target :: rest) (Except.ok walked)
        (fun q => Except.ok (chunks q)) (fun _ => (Except.ok () : Except ε Unit))
      = some (Except.ok (walked.any (fun q => !(chunks q).isEmpty))) := by
  cases walked with
  | nil => rfl
  | cons w ws =>
    have hmap : (fun p => (Except.ok (chunks p) : Except ε (List χ)).bind
          (grep_file (fun _ => (Except.ok () : Except ε Unit))))
        = fun q => (Except.ok (!(chunks q).isEmpty) : Except ε Bool) := by
      funext p
      exact grep_file_all_ok (chunks p)
    show some (try_reduce_or ((w :: ws).map (fun p =>
        (Except.ok (chunks p) : Except ε (List χ)).bind
          (grep_file (fun _ => (Except.ok () : Except ε Unit)))))) = _
    rw [hmap, try_reduce_or_ok]

lemma any_perm {α : Type} (g : α → Bool) {l l' : List α} (h : l.Perm l') :
    l.any g = l'.any g := by
  cases hb : l'.any g with
  | true =>
    rw [List.any_eq_true] at hb ⊢
    obtain ⟨x, hx, hg⟩ := hb
    exact ⟨x, h.mem_iff.mpr hx, hg⟩
  | false =>
    rw [List.any_eq_false] at hb ⊢
    intro x hx
    exact hb x (h.mem_iff.mp hx)

/-- C2: with every per-file search and print succeeding, grep returns
Ok of the OR over the walked files of the per-file found flags, which is
true exactly when some walked file produced at least one chunk; the
result is unchanged under any permutation of the walked files (any
completion order of the parallel work units); and a run whose walker
produced zero files returns Ok(false) without error. -/
theorem grep_result_or_fold {χ ε : Type} (target : String) (rest : List String)
    (walked walked' : List String) (chunks : String → List χ)
    (searchFile : String → Except ε (List χ)) (print : χ → Except ε Unit)
    (hperm : walked.Perm walked') :
    grep (target :: rest) (Except.ok walked)
        (fun q => Except.ok (chunks q)) (fun _ => (Except.ok () : Except ε Unit))
      = some (Except.ok (walked.any (fun q => !(chunks q).isEmpty))) ∧
    (walked.any (fun q => !(chunks q).isEmpty) = true ↔
      ∃ q ∈ walked, chunks q ≠ []) ∧
    grep (target :: rest) (Except.ok walked)
        (fun q => Except.ok (chunks q)) (fun _ => (Except.ok () : Except ε Unit))
      = grep (target :: rest) (Except.ok walked')
          (fun q => Except.ok (chunks q))
          (fun _ => (Except.ok () : Except ε Unit)) ∧
    grep (target :: rest) (Except.ok ([] : List String)) searchFile print
      = some (Except.ok false) := by
  refine ⟨grep_all_ok target rest walked chunks, ?_, ?_, rfl⟩
  · simp
  · rw [grep_all_ok, grep_all_ok, any_perm _ hperm]

/-- Witness for C2 at a concrete input: a run over zero walked files
returns Ok(false); the permutation hypothesis is discharged with the
identity permutation. -/
theorem grep_result_or_fold_witness :
    grep ["d"] (Except.ok ([] : List String))
        (fun _ => Except.ok ([] : List Nat))
        (fun _ => (Except.ok () : Except String Unit))
      = some (Except.ok false) :=
  (grep_result_or_fold "d" [] ["a"] ["a"] (fun _ => ([] : List Nat))
      (fun _ => Except.ok ([] : List Nat)) (fun _ => Except.ok ())
      (List.Perm.refl ["a"])).2.2.2

/-- C10: build_walker takes the first path with an unchecked unwrap, so
grep called with an empty paths iterator panics (modelled as none)
before any walking, and with at least one path supplied the panic branch
is unreachable: build_walker consumes the first path and grep returns a
value. -/
theorem grep_requires_nonempty_paths {χ ε : Type}
    (walkRes : Except ε (List String))
    (searchFile : String → Except ε (List χ)) (print : χ → Except ε Unit)
    (target : String) (rest : List String) :
    build_walker [] = none ∧
    grep ([] : List String) walkRes searchFile print = none ∧
    build_walker (target :: rest) = some (target, rest) ∧
    (grep (target :: rest) walkRes searchFile print).isSome = true := by
  refine ⟨rfl, rfl, rfl, ?_⟩
  simp [grep, build_walker]

end Hgrep
